import Mathlib

/-!
Verification of the rental-management REST API (vidly-style backend).

The repository ships its integration tests (`tests/integration/routes/routes.test.js`)
and the async-handler wrapper (`middleware/async.js`); the route handlers, models and
auth/role/validation middleware are not part of the shipped sources, so those are
modelled from the specification, with the integration tests pinning observable
behaviour where they speak.

Conventions of the shallow embedding:
- document identifiers are strings (valid ones are 24 hex characters);
- timestamps are natural numbers of milliseconds since the epoch;
- HTTP statuses are plain naturals; each route returns `status × state`.
-/

namespace Vidly

/-- Milliseconds in one day, the unit in which day counts are derived. -/
def msPerDay : Nat := 86400000

/-- Modelled from the spec (missing fee helper of the rental model): `daysBetween`
is the elapsed time in whole days between `dateOut` and `dateReturned`, rounded up
when the elapsed duration exceeds a whole-day boundary (ceiling division). -/
def daysBetween (dateOut dateReturned : Nat) : Nat :=
  (dateReturned - dateOut + msPerDay - 1) / msPerDay

/-- A character of a hexadecimal document identifier. -/
def isHexChar (c : Char) : Bool :=
  c.isDigit || (('a' ≤ c) && (c ≤ 'f')) || (('A' ≤ c) && (c ≤ 'F'))

/-- Modelled from the spec (missing identifier validation shared by the validation
layer and the path-id middleware): a well-formed document identifier is a 24
character hexadecimal string. -/
def isValidObjectId (s : String) : Bool :=
  s.length == 24 && s.data.all isHexChar

/-- Denormalized customer snapshot embedded in a rental at creation time. -/
structure RentalCustomer where
  _id : String
  name : String
  phone : String
deriving DecidableEq, Repr

/-- Denormalized movie snapshot embedded in a rental at creation time. -/
structure RentalMovie where
  _id : String
  title : String
  dailyRentalRate : Nat
deriving DecidableEq, Repr

/-- A rental document: snapshots of customer and movie, `dateOut`, and the
nullable `dateReturned` and `rentalFee` filled in by the return workflow. -/
structure Rental where
  _id : String
  customer : RentalCustomer
  movie : RentalMovie
  dateOut : Nat
  dateReturned : Option Nat
  rentalFee : Option Nat
deriving DecidableEq, Repr

/-- A movie document in the movies collection. -/
structure MovieDoc where
  _id : String
  title : String
  genreName : String
  numberInStock : Nat
  dailyRentalRate : Nat
deriving DecidableEq, Repr

/-- A genre document. -/
structure Genre where
  _id : String
  name : String
deriving DecidableEq, Repr

/-- The slice of the document store the claims are about. -/
structure DB where
  rentals : List Rental
  movies : List MovieDoc
deriving DecidableEq, Repr

/-- Modelled from the spec (missing `Rental.lookup` static of the rental model):
find the rental whose denormalized `customer._id` and `movie._id` match the given
pair.  The integration test "should return 400 if return is already processed"
(routes.test.js:443) pins that the lookup matches irrespective of `dateReturned`:
an already-returned rental is found and rejected by the explicit guard with 400
rather than falling through to the 404 of a failed lookup. -/
def Rental.lookup (db : DB) (customerId movieId : String) : Option Rental :=
  db.rentals.find? fun r => r.customer._id == customerId && r.movie._id == movieId

/-- Modelled from the spec (missing `rental.return()` instance method): stamp
`dateReturned` with the current time and set
`rentalFee = daysBetween(dateOut, dateReturned) * movie.dailyRentalRate`. -/
def Rental.stampReturned (r : Rental) (now : Nat) : Rental :=
  { r with
    dateReturned := some now
    rentalFee := some (daysBetween r.dateOut now * r.movie.dailyRentalRate) }

/-- Persist an updated rental: replace the document with the same `_id`. -/
def saveRental (rentals : List Rental) (r : Rental) : List Rental :=
  rentals.map fun x => if x._id == r._id then r else x

/-- Modelled from the spec (missing stock update of the returns route): increment
`numberInStock` of the movie document with the given `_id` by one. -/
def restock (movies : List MovieDoc) (movieId : String) : List MovieDoc :=
  movies.map fun m =>
    if m._id == movieId then { m with numberInStock := m.numberInStock + 1 } else m

/-- Outcome of the rental-return workflow proper (after auth and validation). -/
inductive ReturnOutcome where
  | notFound
  | alreadyProcessed
  | ok (rental : Rental)
deriving DecidableEq, Repr

/-- HTTP status carried by each return-workflow outcome. -/
def ReturnOutcome.status : ReturnOutcome → Nat
  | .notFound => 404
  | .alreadyProcessed => 400
  | .ok _ => 200

/-- Modelled from the spec (missing body of the returns route handler): look up
the rental for the pair (404 when absent), reject an already-returned rental
(400), otherwise stamp the return, persist the rental and restock the movie. -/
def processReturn (db : DB) (customerId movieId : String) (now : Nat) :
    ReturnOutcome × DB :=
  match Rental.lookup db customerId movieId with
  | none => (.notFound, db)
  | some r =>
    match r.dateReturned with
    | some _ => (.alreadyProcessed, db)
    | none =>
      let r2 := r.stampReturned now
      (.ok r2, { rentals := saveRental db.rentals r2,
                 movies := restock db.movies r.movie._id })

/-! ## Token service and middleware -/

/-- Identity payload carried by a signed token: user id and admin flag. -/
structure Identity where
  _id : String
  isAdmin : Bool
deriving DecidableEq, Repr

/-- A token as transported in the `x-auth-token` header: either a string signed
with some secret and embedding an identity payload, or an unparsable string. -/
inductive Token where
  | signed (payload : Identity) (secret : String)
  | malformed (raw : String)
deriving DecidableEq, Repr

/-- Modelled from the spec (missing token service `issue`): produce a signed
string embedding the identity payload under the server-held secret. -/
def issueToken (secret : String) (payload : Identity) : Token :=
  .signed payload secret

/-- Modelled from the spec (missing token service `verify`): succeed with the
decoded identity when the token was signed with the server secret, fail on a
malformed or differently-signed token. -/
def verifyToken (secret : String) : Token → Option Identity
  | .signed p s => if s = secret then some p else none
  | .malformed _ => none

/-- Result of a middleware stage: either halt the request with an HTTP status,
or pass a value downstream. -/
inductive MwResult (α : Type) where
  | halt (status : Nat)
  | next (a : α)
deriving DecidableEq, Repr

/-- Modelled from the spec (missing `middleware/auth.js`): no token header gives
401, a token that fails verification gives 400, otherwise the decoded identity
is passed downstream. -/
def authMiddleware (secret : String) (header : Option Token) : MwResult Identity :=
  match header with
  | none => .halt 401
  | some t =>
    match verifyToken secret t with
    | none => .halt 400
    | some i => .next i

/-- Modelled from the spec (missing `middleware/admin.js`): an absent identity
or one whose `isAdmin` is false gives 403, otherwise the request passes. -/
def adminMiddleware (i : Option Identity) : MwResult Identity :=
  match i with
  | none => .halt 403
  | some i => if i.isAdmin then .next i else .halt 403

/-- A protected route: the auth middleware runs first; only when it passes is
the downstream handler invoked on the untouched state. -/
def protectedRoute {σ : Type} (secret : String) (header : Option Token)
    (handler : Identity → σ → Nat × σ) (st : σ) : Nat × σ :=
  match authMiddleware secret header with
  | .halt s => (s, st)
  | .next i => handler i st

/-- An admin-only route: auth middleware, then role middleware, then handler. -/
def adminRoute {σ : Type} (secret : String) (header : Option Token)
    (handler : Identity → σ → Nat × σ) (st : σ) : Nat × σ :=
  protectedRoute secret header
    (fun i st =>
      match adminMiddleware (some i) with
      | .halt s => (s, st)
      | .next i => handler i st)
    st

/-! ## Routes -/

/-- Request body of `POST /api/returns`. -/
structure ReturnsBody where
  customerId : String
  movieId : String
deriving DecidableEq, Repr

/-- Modelled from the spec (missing request-body schema of the returns route):
both ids are required and must be well-formed document identifiers. -/
def validateReturnBody (b : ReturnsBody) : Bool :=
  isValidObjectId b.customerId && isValidObjectId b.movieId

/-- Modelled from the spec (missing `routes/returns.js`): auth middleware, body
validation (400 on malformed or missing ids), then the return workflow. -/
def postReturns (secret : String) (header : Option Token) (b : ReturnsBody)
    (now : Nat) (db : DB) : Nat × DB :=
  protectedRoute secret header
    (fun _ db =>
      if validateReturnBody b then
        let (o, db2) := processReturn db b.customerId b.movieId now
        (o.status, db2)
      else (400, db))
    db

/-- Modelled from the spec (missing genre schema `validateGenre`): the genre
name is required with length between 5 and 50 characters. -/
def validateGenre (name : String) : Bool :=
  5 ≤ name.length && name.length ≤ 50

/-- Modelled from the spec (missing `POST /api/genres` handler): auth, then body
validation (400 short-circuits before anything is stored), then insertion. -/
def postGenre (secret : String) (header : Option Token) (name : String)
    (newId : String) (genres : List Genre) : Nat × List Genre :=
  protectedRoute secret header
    (fun _ gs =>
      if validateGenre name then (200, gs ++ [⟨newId, name⟩])
      else (400, gs))
    genres

/-- Modelled from the spec (missing `GET /api/genres/:id` handler): a malformed
path identifier gives 404, a well-formed one matching no document gives 404,
otherwise 200. -/
def getGenreById (genres : List Genre) (idStr : String) : Nat :=
  if isValidObjectId idStr then
    match genres.find? (fun g => g._id == idStr) with
    | none => 404
    | some _ => 200
  else 404

/-- Modelled from the spec (missing `PUT /api/genres/:id` handler): auth, 404 on
a malformed path identifier, 400 on an invalid body, 404 on a well-formed id
matching no document, otherwise update the name. -/
def putGenre (secret : String) (header : Option Token) (idStr name : String)
    (genres : List Genre) : Nat × List Genre :=
  protectedRoute secret header
    (fun _ gs =>
      if isValidObjectId idStr then
        if validateGenre name then
          match gs.find? (fun g => g._id == idStr) with
          | none => (404, gs)
          | some _ =>
            (200, gs.map fun g => if g._id == idStr then { g with name := name } else g)
        else (400, gs)
      else (404, gs))
    genres

/-- Modelled from the spec (missing `DELETE /api/genres/:id` handler): auth and
role middleware, 404 on a malformed path identifier, 404 on a well-formed id
matching no document, otherwise removal. -/
def deleteGenre (secret : String) (header : Option Token) (idStr : String)
    (genres : List Genre) : Nat × List Genre :=
  adminRoute secret header
    (fun _ gs =>
      if isValidObjectId idStr then
        match gs.find? (fun g => g._id == idStr) with
        | none => (404, gs)
        | some _ => (200, gs.filter fun g => !(g._id == idStr))
      else (404, gs))
    genres

/-! ## Login route -/

/-- A user document. -/
structure User where
  _id : String
  name : String
  email : String
  password : String
  isAdmin : Bool
deriving DecidableEq, Repr

/-- Modelled from the spec (missing password hashing setup): the stored password
is a deterministic one-way digest of the plaintext. -/
def hashPassword (plain : String) : String :=
  "digest" ++ plain

/-- Compare a stored password hash against a candidate plaintext. -/
def checkPassword (stored candidate : String) : Bool :=
  stored == hashPassword candidate

/-- Modelled from the spec (missing login body schema): email and password are
required, with an email-format check on the email. -/
def validateAuthBody (email password : String) : Bool :=
  5 ≤ email.length && email.length ≤ 255 && email.data.contains '@' &&
    5 ≤ password.length && password.length ≤ 255

/-- Modelled from the spec (missing `routes/auth.js`): 400 on an invalid body;
look up the user by email, 400 when absent; compare the password against the
stored hash, 400 on mismatch; 200 with a fresh token on success. -/
def postAuth (users : List User) (email password : String) : Nat :=
  if validateAuthBody email password then
    match users.find? (fun u => u.email == email) with
    | none => 400
    | some u => if checkPassword u.password password then 200 else 400
  else 400

/-! ## Error boundary -/

/-- An exception value as it travels the middleware chain: a message and the
stack trace attached by the runtime. -/
structure ErrorInfo where
  message : String
  stack : String
deriving DecidableEq, Repr

/-- An HTTP response with its body text. -/
structure HttpResponse where
  status : Nat
  body : String
deriving DecidableEq, Repr

/-- Shallow embedding of `middleware/async.js`: run the wrapped handler; when it
throws (returns `.error`), forward the exception to `next`, the framework error
chain; otherwise the handler's response stands. -/
def asyncMiddleware {Req : Type} (handle : Req → Except ErrorInfo HttpResponse)
    (next : ErrorInfo → HttpResponse) (req : Req) : HttpResponse :=
  match handle req with
  | .ok r => r
  | .error e => next e

/-- Modelled from the spec (missing `middleware/error.js`): the outermost error
middleware converts any forwarded exception into a generic 500 response whose
body never includes the exception's stack trace. -/
def errorMiddleware (_e : ErrorInfo) : HttpResponse :=
  { status := 500, body := "Something failed." }

/-! ## Concrete fixtures

Concrete documents mirroring the ones the integration tests build, used to
evaluate the verified properties on explicit inputs. -/

/-- A concrete customer identifier (24 hex characters). -/
def tCid : String := "aaaaaaaaaaaaaaaaaaaaaaaa"

/-- A concrete movie identifier (24 hex characters). -/
def tMid : String := "bbbbbbbbbbbbbbbbbbbbbbbb"

/-- The movie document the returns tests store: stock 10, daily rate 2. -/
def tMovie : MovieDoc := ⟨tMid, "12345", "12345", 10, 2⟩

/-- The open rental the returns tests store for the pair. -/
def tRentalOpen : Rental :=
  ⟨"cccccccccccccccccccccccc", ⟨tCid, "12345", "12345"⟩, ⟨tMid, "12345", 2⟩,
    0, none, none⟩

/-- The same rental after it has already been returned. -/
def tRentalClosed : Rental :=
  { tRentalOpen with dateReturned := some 1000, rentalFee := some 0 }

/-- Store holding the open rental and the movie. -/
def tDb : DB := ⟨[tRentalOpen], [tMovie]⟩

/-- Store holding only the already-returned rental and the movie. -/
def tDbClosed : DB := ⟨[tRentalClosed], [tMovie]⟩

/-- Store holding no rental at all. -/
def tDbNoRentals : DB := ⟨[], [tMovie]⟩

/-- The request body of the returns tests. -/
def tBody : ReturnsBody := ⟨tCid, tMid⟩

/-- A return time exactly seven days after the rental's `dateOut`. -/
def tNow : Nat := 7 * msPerDay

/-- The stored rental after the return is processed at `tNow`. -/
def tR2 : Rental := tRentalOpen.stampReturned tNow

/-- The store after the return is processed at `tNow`. -/
def tDbAfter : DB := ⟨saveRental tDb.rentals tR2, restock tDb.movies tMid⟩

/-- A non-admin identity. -/
def tUserIdentity : Identity := ⟨"dddddddddddddddddddddddd", false⟩

/-- An admin identity. -/
def tAdminIdentity : Identity := ⟨"eeeeeeeeeeeeeeeeeeeeeeee", true⟩

/-- A concrete genre identifier (24 hex characters). -/
def tGenreId : String := "ffffffffffffffffffffffff"

/-- A concrete genre document. -/
def tGenre : Genre := ⟨tGenreId, "genre1"⟩

/-- The stored user of the login tests, password hashed at rest. -/
def tUser : User :=
  ⟨"abcdefabcdefabcdefabcdef", "Traian M.", "user@example.com",
    hashPassword "12345", false⟩

/-! ## Helper lemmas -/

/-- The pair predicate used by `Rental.lookup`. -/
def matchesPair (customerId movieId : String) (r : Rental) : Bool :=
  r.customer._id == customerId && r.movie._id == movieId

theorem lookup_eq_find? (db : DB) (customerId movieId : String) :
    Rental.lookup db customerId movieId
      = db.rentals.find? (matchesPair customerId movieId) := rfl

theorem verifyToken_issueToken (secret : String) (i : Identity) :
    verifyToken secret (issueToken secret i) = some i := by
  simp [verifyToken, issueToken]

theorem stampReturned_id (r : Rental) (now : Nat) :
    (r.stampReturned now)._id = r._id := rfl

theorem stampReturned_dateReturned (r : Rental) (now : Nat) :
    (r.stampReturned now).dateReturned = some now := rfl

/-- Evaluation of the workflow when the lookup misses. -/
theorem processReturn_of_lookup_none (db : DB) (customerId movieId : String)
    (now : Nat) (h : Rental.lookup db customerId movieId = none) :
    processReturn db customerId movieId now = (.notFound, db) := by
  simp [processReturn, h]

/-- Evaluation of the workflow when the found rental is already returned. -/
theorem processReturn_of_returned (db : DB) (customerId movieId : String)
    (now d : Nat) (r : Rental)
    (h : Rental.lookup db customerId movieId = some r)
    (hd : r.dateReturned = some d) :
    processReturn db customerId movieId now = (.alreadyProcessed, db) := by
  simp [processReturn, h, hd]

/-- Evaluation of the workflow when the found rental is open. -/
theorem processReturn_of_open (db : DB) (customerId movieId : String)
    (now : Nat) (r : Rental)
    (h : Rental.lookup db customerId movieId = some r)
    (hd : r.dateReturned = none) :
    processReturn db customerId movieId now
      = (.ok (r.stampReturned now),
         ⟨saveRental db.rentals (r.stampReturned now),
          restock db.movies r.movie._id⟩) := by
  simp [processReturn, h, hd]

/-- After persisting the stamped rental, the same pair lookup retrieves exactly
the stamped rental. -/
theorem find?_saveRental_stamped (rentals : List Rental) (customerId movieId : String)
    (r : Rental) (now : Nat)
    (h : rentals.find? (matchesPair customerId movieId) = some r) :
    (saveRental rentals (r.stampReturned now)).find? (matchesPair customerId movieId)
      = some (r.stampReturned now) := by
  have hpr : matchesPair customerId movieId r = true := List.find?_some h
  have hpr2 : matchesPair customerId movieId (r.stampReturned now) = true := hpr
  induction rentals with
  | nil => simp [List.find?] at h
  | cons x xs ih =>
    unfold saveRental
    rw [List.map_cons]
    by_cases hx : matchesPair customerId movieId x = true
    · rw [List.find?_cons_of_pos _ hx] at h
      have hxr : x = r := by injection h
      subst hxr
      have hid : (x._id == (x.stampReturned now)._id) = true := by
        rw [stampReturned_id]; exact beq_self_eq_true _
      rw [if_pos hid]
      exact List.find?_cons_of_pos _ hpr2
    · have hx' : matchesPair customerId movieId x = false := by
        exact Bool.not_eq_true _ ▸ (by simpa using hx)
      rw [List.find?_cons_of_neg _ (by simp [hx'])] at h
      by_cases hid : (x._id == (r.stampReturned now)._id) = true
      · rw [if_pos hid]
        exact List.find?_cons_of_pos _ hpr2
      · rw [if_neg hid]
        rw [List.find?_cons_of_neg _ (by simp [hx'])]
        exact ih h

/-! ## Claims -/

/-- C1: every open rental successfully processed by the returns route is stored
with `rentalFee = daysBetween(dateOut, dateReturned) * movie.dailyRentalRate`
(whole days, rounded up), and when the return happens exactly seven days after
`dateOut` with a daily rate of 2 the stored fee is exactly 14. -/
theorem c1_return_fee (db : DB) (customerId movieId : String) (now : Nat)
    (r2 : Rental) (db2 : DB)
    (h : processReturn db customerId movieId now = (.ok r2, db2)) :
    r2 ∈ db2.rentals ∧
    r2.dateReturned = some now ∧
    r2.rentalFee = some (daysBetween r2.dateOut now * r2.movie.dailyRentalRate) ∧
    (now = r2.dateOut + 7 * msPerDay → r2.movie.dailyRentalRate = 2 →
      r2.rentalFee = some 14) := by
  cases hl : Rental.lookup db customerId movieId with
  | none =>
    rw [processReturn_of_lookup_none db customerId movieId now hl] at h
    simp at h
  | some r =>
    cases hd : r.dateReturned with
    | some d =>
      rw [processReturn_of_returned db customerId movieId now d r hl hd] at h
      simp at h
    | none =>
      rw [processReturn_of_open db customerId movieId now r hl hd] at h
      simp only [Prod.mk.injEq, ReturnOutcome.ok.injEq] at h
      obtain ⟨hr2, hdb2⟩ := h
      subst hr2
      subst hdb2
      refine ⟨?_, rfl, rfl, ?_⟩
      · exact List.mem_of_find?_eq_some
          (find?_saveRental_stamped db.rentals customerId movieId r now
            (lookup_eq_find? db customerId movieId ▸ hl))
      · intro hnow hrate
        have hdays : daysBetween r.dateOut now = 7 := by
          have hnow' : now = r.dateOut + 7 * msPerDay := hnow
          subst hnow'
          simp only [daysBetween, msPerDay]
          omega
        have hrate' : r.movie.dailyRentalRate = 2 := hrate
        show some (daysBetween r.dateOut now * r.movie.dailyRentalRate) = some 14
        rw [hdays, hrate']

/-- C1 witness: on the concrete store of the integration tests, with the return
seven days after `dateOut` and a daily rate of 2, the stored fee is 14. -/
theorem c1_witness : tR2 ∈ tDbAfter.rentals ∧ tR2.rentalFee = some 14 :=
  ⟨(c1_return_fee tDb tCid tMid tNow tR2 tDbAfter (by decide)).1,
   (c1_return_fee tDb tCid tMid tNow tR2 tDbAfter (by decide)).2.2.2
     (by decide) (by decide)⟩

/-- C2: a rental found for the pair that already carries a `dateReturned` is
rejected with 400 and the store is untouched; returning an open rental twice
yields 200 then 400, the second call leaving rental and movie state unchanged. -/
theorem c2_double_return (secret : String) (i : Identity) (b : ReturnsBody)
    (db : DB) (r : Rental) (now1 now2 : Nat)
    (hv : validateReturnBody b = true)
    (hl : Rental.lookup db b.customerId b.movieId = some r) :
    (∀ d, r.dateReturned = some d →
      postReturns secret (some (issueToken secret i)) b now1 db = (400, db)) ∧
    (r.dateReturned = none →
      postReturns secret (some (issueToken secret i)) b now1 db
        = (200, ⟨saveRental db.rentals (r.stampReturned now1),
                 restock db.movies r.movie._id⟩) ∧
      postReturns secret (some (issueToken secret i)) b now2
          ⟨saveRental db.rentals (r.stampReturned now1),
           restock db.movies r.movie._id⟩
        = (400, ⟨saveRental db.rentals (r.stampReturned now1),
                 restock db.movies r.movie._id⟩)) := by
  have hauth := verifyToken_issueToken secret i
  constructor
  · intro d hd
    simp [postReturns, protectedRoute, authMiddleware, hauth, hv,
      processReturn_of_returned db b.customerId b.movieId now1 d r hl hd,
      ReturnOutcome.status]
  · intro hopen
    constructor
    · simp [postReturns, protectedRoute, authMiddleware, hauth, hv,
        processReturn_of_open db b.customerId b.movieId now1 r hl hopen,
        ReturnOutcome.status]
    · have hl2 : Rental.lookup
          ⟨saveRental db.rentals (r.stampReturned now1),
           restock db.movies r.movie._id⟩ b.customerId b.movieId
          = some (r.stampReturned now1) := by
        rw [lookup_eq_find?]
        exact find?_saveRental_stamped db.rentals b.customerId b.movieId r now1
          (lookup_eq_find? db b.customerId b.movieId ▸ hl)
      simp [postReturns, protectedRoute, authMiddleware, hauth, hv,
        processReturn_of_returned _ b.customerId b.movieId now2 now1
          (r.stampReturned now1) hl2 (stampReturned_dateReturned r now1),
        ReturnOutcome.status]

/-- C2 witness: on the concrete store, the first return responds 200 and the
second responds 400 while leaving the post-return store unchanged. -/
theorem c2_witness :
    postReturns "s" (some (issueToken "s" tUserIdentity)) tBody tNow tDb
      = (200, tDbAfter) ∧
    postReturns "s" (some (issueToken "s" tUserIdentity)) tBody (tNow + 5) tDbAfter
      = (400, tDbAfter) :=
  (c2_double_return "s" tUserIdentity tBody tDb tRentalOpen tNow (tNow + 5)
    (by decide) (by decide)).2 rfl

/-- C3 counterexample: in a store whose only rental for the pair is already
returned there is no open rental for the pair, yet the returns route responds
400, not the 404 the claim requires. -/
theorem c3_counterexample :
    (tDbClosed.rentals.all fun r =>
      !(r.customer._id == tCid && r.movie._id == tMid &&
        r.dateReturned == none)) = true ∧
    postReturns "s" (some (issueToken "s" tUserIdentity)) tBody tNow tDbClosed
      = (400, tDbClosed) ∧
    (400 : Nat) ≠ 404 := by decide

/-- C3 (amended): when no rental record at all matches the pair — open or
returned — the returns route responds 404 and mutates no stored document. -/
theorem c3_no_rental_404 (secret : String) (i : Identity) (b : ReturnsBody)
    (db : DB) (now : Nat)
    (hv : validateReturnBody b = true)
    (hl : Rental.lookup db b.customerId b.movieId = none) :
    postReturns secret (some (issueToken secret i)) b now db = (404, db) := by
  have hauth := verifyToken_issueToken secret i
  simp [postReturns, protectedRoute, authMiddleware, hauth, hv,
    processReturn_of_lookup_none db b.customerId b.movieId now hl,
    ReturnOutcome.status]

/-- C3 witness: on a store holding no rental, the returns route responds 404
and the store is unchanged. -/
theorem c3_witness :
    postReturns "s" (some (issueToken "s" tUserIdentity)) tBody tNow tDbNoRentals
      = (404, tDbNoRentals) :=
  c3_no_rental_404 "s" tUserIdentity tBody tDbNoRentals tNow (by decide) (by decide)

/-- C4: a successful return responds 200 with the store in which the referenced
movie's `numberInStock` is incremented by exactly one, and every movie document
with a different identifier is carried over unmodified. -/
theorem c4_restock_increment (secret : String) (i : Identity) (b : ReturnsBody)
    (db : DB) (r : Rental) (now : Nat)
    (hv : validateReturnBody b = true)
    (hl : Rental.lookup db b.customerId b.movieId = some r)
    (hopen : r.dateReturned = none) :
    postReturns secret (some (issueToken secret i)) b now db
      = (200, ⟨saveRental db.rentals (r.stampReturned now),
               restock db.movies r.movie._id⟩) ∧
    (∀ m ∈ db.movies, m._id = r.movie._id →
      { m with numberInStock := m.numberInStock + 1 }
        ∈ restock db.movies r.movie._id) ∧
    (∀ m ∈ db.movies, m._id ≠ r.movie._id → m ∈ restock db.movies r.movie._id) := by
  have hauth := verifyToken_issueToken secret i
  refine ⟨?_, ?_, ?_⟩
  · simp [postReturns, protectedRoute, authMiddleware, hauth, hv,
      processReturn_of_open db b.customerId b.movieId now r hl hopen,
      ReturnOutcome.status]
  · intro m hm hid
    have hmem := List.mem_map_of_mem
      (fun m => if m._id == r.movie._id
        then { m with numberInStock := m.numberInStock + 1 } else m) hm
    simpa [restock, hid] using hmem
  · intro m hm hid
    have hmem := List.mem_map_of_mem
      (fun m => if m._id == r.movie._id
        then { m with numberInStock := m.numberInStock + 1 } else m) hm
    simpa [restock, hid] using hmem

/-- C4 witness: on the concrete store the return responds 200 and the stored
movie's stock rises from 10 to 11. -/
theorem c4_witness :
    postReturns "s" (some (issueToken "s" tUserIdentity)) tBody tNow tDb
      = (200, tDbAfter) ∧
    { tMovie with numberInStock := tMovie.numberInStock + 1 } ∈ tDbAfter.movies :=
  ⟨(c4_restock_increment "s" tUserIdentity tBody tDb tRentalOpen tNow
      (by decide) (by decide) rfl).1,
   (c4_restock_increment "s" tUserIdentity tBody tDb tRentalOpen tNow
      (by decide) (by decide) rfl).2.1 tMovie (by decide) rfl⟩

/-- C5: the auth middleware halts with 401 when no token header is present
without invoking the downstream handler, halts with 400 when the token fails
verification, and otherwise hands the decoded identity to the handler on the
untouched state. -/
theorem c5_auth_boundary (σ : Type) (secret : String) :
    (∀ (h : Identity → σ → Nat × σ) (st : σ),
      protectedRoute secret none h st = (401, st)) ∧
    (∀ t, verifyToken secret t = none →
      ∀ (h : Identity → σ → Nat × σ) (st : σ),
        protectedRoute secret (some t) h st = (400, st)) ∧
    (∀ t i, verifyToken secret t = some i →
      ∀ (h : Identity → σ → Nat × σ) (st : σ),
        protectedRoute secret (some t) h st = h i st) := by
  refine ⟨?_, ?_, ?_⟩
  · intro h st
    simp [protectedRoute, authMiddleware]
  · intro t hv h st
    simp [protectedRoute, authMiddleware, hv]
  · intro t i hv h st
    simp [protectedRoute, authMiddleware, hv]

/-- C5 witness: a missing header yields 401, the unparsable token of the tests
yields 400, and a valid token lets the handler produce the response. -/
theorem c5_witness :
    protectedRoute "s" none (fun (_ : Identity) (n : Nat) => (200, n)) 0
      = (401, 0) ∧
    protectedRoute "s" (some (Token.malformed "a"))
      (fun (_ : Identity) (n : Nat) => (200, n)) 0 = (400, 0) ∧
    protectedRoute "s" (some (issueToken "s" tUserIdentity))
      (fun (_ : Identity) (n : Nat) => (200, n)) 0 = (200, 0) :=
  ⟨(c5_auth_boundary Nat "s").1 _ 0,
   (c5_auth_boundary Nat "s").2.1 (Token.malformed "a") (by decide) _ 0,
   (c5_auth_boundary Nat "s").2.2 (issueToken "s" tUserIdentity) tUserIdentity
     (by decide) _ 0⟩

/-- C6: whenever the wrapped handler throws, the async wrapper forwards the
exception to the error chain, which responds with the generic 500 body; the
response is the same for every exception, so no stack trace ever reaches the
client. -/
theorem c6_async_error_to_500 (Req : Type)
    (handle : Req → Except ErrorInfo HttpResponse) (req : Req) (e : ErrorInfo)
    (h : handle req = .error e) :
    asyncMiddleware handle errorMiddleware req
      = { status := 500, body := "Something failed." } ∧
    (asyncMiddleware handle errorMiddleware req).status = 500 ∧
    (∀ e2 : ErrorInfo, errorMiddleware e = errorMiddleware e2) := by
  refine ⟨?_, ?_, fun e2 => rfl⟩
  · simp [asyncMiddleware, h, errorMiddleware]
  · simp [asyncMiddleware, h, errorMiddleware]

/-- C6 witness: a handler that always throws produces the generic 500 response
whose body does not mention the exception's stack. -/
theorem c6_witness :
    asyncMiddleware (fun (_ : Nat) => Except.error ⟨"boom", "trace"⟩)
      errorMiddleware 0 = { status := 500, body := "Something failed." } :=
  (c6_async_error_to_500 Nat _ 0 ⟨"boom", "trace"⟩ rfl).1

/-- C7: on the genre creation and update routes, a name of length 4 or 51 is
rejected with 400 while the store is left untouched, and names of length 5 and
50 are accepted; validation short-circuits before anything is stored. -/
theorem c7_genre_name_bounds (secret : String) (t : Token) (i : Identity)
    (name newId idStr : String) (genres : List Genre)
    (hauth : verifyToken secret t = some i)
    (hid : isValidObjectId idStr = true) :
    (name.length = 4 → postGenre secret (some t) name newId genres = (400, genres)) ∧
    (name.length = 51 → postGenre secret (some t) name newId genres = (400, genres)) ∧
    (name.length = 5 ∨ name.length = 50 →
      postGenre secret (some t) name newId genres = (200, genres ++ [⟨newId, name⟩])) ∧
    (name.length = 4 → putGenre secret (some t) idStr name genres = (400, genres)) ∧
    (name.length = 51 → putGenre secret (some t) idStr name genres = (400, genres)) ∧
    (name.length = 5 ∨ name.length = 50 →
      ∀ g, genres.find? (fun x => x._id == idStr) = some g →
        (putGenre secret (some t) idStr name genres).1 = 200) := by
  refine ⟨?_, ?_, ?_, ?_, ?_, ?_⟩
  · intro hlen
    simp [postGenre, protectedRoute, authMiddleware, hauth, validateGenre, hlen]
  · intro hlen
    simp [postGenre, protectedRoute, authMiddleware, hauth, validateGenre, hlen]
  · rintro (hlen | hlen) <;>
      simp [postGenre, protectedRoute, authMiddleware, hauth, validateGenre, hlen]
  · intro hlen
    simp [putGenre, protectedRoute, authMiddleware, hauth, hid, validateGenre, hlen]
  · intro hlen
    simp [putGenre, protectedRoute, authMiddleware, hauth, hid, validateGenre, hlen]
  · rintro (hlen | hlen) g hg <;>
      simp [putGenre, protectedRoute, authMiddleware, hauth, hid, validateGenre,
        hlen, hg]

/-- C7 witness: concrete genre names of lengths 4, 5, 50 and 51 behave as the
boundary demands on both the creation and the update route. -/
theorem c7_witness :
    postGenre "s" (some (issueToken "s" tUserIdentity)) "1234" tGenreId []
      = (400, []) ∧
    postGenre "s" (some (issueToken "s" tUserIdentity)) "12345" tGenreId []
      = (200, [⟨tGenreId, "12345"⟩]) ∧
    postGenre "s" (some (issueToken "s" tUserIdentity))
      "aaaaaaaaaaaaaaaaaaaaaaaaaaaaaaaaaaaaaaaaaaaaaaaaaa" tGenreId []
      = (200, [⟨tGenreId, "aaaaaaaaaaaaaaaaaaaaaaaaaaaaaaaaaaaaaaaaaaaaaaaaaa"⟩]) ∧
    postGenre "s" (some (issueToken "s" tUserIdentity))
      "aaaaaaaaaaaaaaaaaaaaaaaaaaaaaaaaaaaaaaaaaaaaaaaaaaa" tGenreId []
      = (400, []) ∧
    putGenre "s" (some (issueToken "s" tUserIdentity)) tGenreId "1234" [tGenre]
      = (400, [tGenre]) ∧
    (putGenre "s" (some (issueToken "s" tUserIdentity)) tGenreId "12345" [tGenre]).1
      = 200 :=
  ⟨(c7_genre_name_bounds "s" (issueToken "s" tUserIdentity) tUserIdentity
      "1234" tGenreId tGenreId [] (by decide) (by decide)).1 (by decide),
   (c7_genre_name_bounds "s" (issueToken "s" tUserIdentity) tUserIdentity
      "12345" tGenreId tGenreId [] (by decide) (by decide)).2.2.1 (Or.inl (by decide)),
   (c7_genre_name_bounds "s" (issueToken "s" tUserIdentity) tUserIdentity
      "aaaaaaaaaaaaaaaaaaaaaaaaaaaaaaaaaaaaaaaaaaaaaaaaaa" tGenreId tGenreId []
      (by decide) (by decide)).2.2.1 (Or.inr (by decide)),
   (c7_genre_name_bounds "s" (issueToken "s" tUserIdentity) tUserIdentity
      "aaaaaaaaaaaaaaaaaaaaaaaaaaaaaaaaaaaaaaaaaaaaaaaaaaa" tGenreId tGenreId []
      (by decide) (by decide)).2.1 (by decide),
   (c7_genre_name_bounds "s" (issueToken "s" tUserIdentity) tUserIdentity
      "1234" tGenreId tGenreId [tGenre] (by decide) (by decide)).2.2.2.1 (by decide),
   (c7_genre_name_bounds "s" (issueToken "s" tUserIdentity) tUserIdentity
      "12345" tGenreId tGenreId [tGenre] (by decide) (by decide)).2.2.2.2.2
     (Or.inl (by decide)) tGenre (by decide)⟩

/-- C8: on an admin-only route a verified identity with `isAdmin` false is
rejected with 403 without the handler running, an absent identity is rejected
with 403, and an admin identity passes through to the handler unchanged. -/
theorem c8_admin_boundary (σ : Type) (secret : String) (t : Token) (i : Identity)
    (hauth : verifyToken secret t = some i) :
    (i.isAdmin = false → ∀ (h : Identity → σ → Nat × σ) (st : σ),
      adminRoute secret (some t) h st = (403, st)) ∧
    adminMiddleware none = .halt 403 ∧
    (i.isAdmin = true → ∀ (h : Identity → σ → Nat × σ) (st : σ),
      adminRoute secret (some t) h st = h i st) := by
  refine ⟨?_, rfl, ?_⟩
  · intro hadm h st
    simp [adminRoute, protectedRoute, authMiddleware, hauth, adminMiddleware, hadm]
  · intro hadm h st
    simp [adminRoute, protectedRoute, authMiddleware, hauth, adminMiddleware, hadm]

/-- C8 witness: the non-admin token of the tests is rejected with 403 while an
admin token reaches the handler. -/
theorem c8_witness :
    adminRoute "s" (some (issueToken "s" tUserIdentity))
      (fun (_ : Identity) (n : Nat) => (200, n)) 0 = (403, 0) ∧
    adminRoute "s" (some (issueToken "s" tAdminIdentity))
      (fun (_ : Identity) (n : Nat) => (200, n)) 0 = (200, 0) :=
  ⟨(c8_admin_boundary Nat "s" (issueToken "s" tUserIdentity) tUserIdentity
      (by decide)).1 rfl _ 0,
   (c8_admin_boundary Nat "s" (issueToken "s" tAdminIdentity) tAdminIdentity
      (by decide)).2.2 rfl _ 0⟩

/-- C9: a malformed path identifier on the genre id routes yields 404 — the
same status as a well-formed identifier matching no document — whereas a
malformed identifier inside the returns request body yields 400. -/
theorem c9_path_id_not_found (secret : String) (t : Token) (i : Identity)
    (genres : List Genre) (idBad idAbsent : String)
    (hauth : verifyToken secret t = some i)
    (hadmin : i.isAdmin = true)
    (hbad : isValidObjectId idBad = false)
    (hgood : isValidObjectId idAbsent = true)
    (habsent : genres.find? (fun g => g._id == idAbsent) = none) :
    getGenreById genres idBad = 404 ∧
    getGenreById genres idAbsent = 404 ∧
    (∀ name, putGenre secret (some t) idBad name genres = (404, genres)) ∧
    deleteGenre secret (some t) idBad genres = (404, genres) ∧
    (∀ (b : ReturnsBody) (now : Nat) (db : DB),
      isValidObjectId b.customerId = false →
        postReturns secret (some t) b now db = (400, db)) := by
  refine ⟨?_, ?_, ?_, ?_, ?_⟩
  · simp [getGenreById, hbad]
  · simp [getGenreById, hgood, habsent]
  · intro name
    simp [putGenre, protectedRoute, authMiddleware, hauth, hbad]
  · simp [deleteGenre, adminRoute, protectedRoute, authMiddleware, hauth,
      adminMiddleware, hadmin, hbad]
  · intro b now db hb
    simp [postReturns, protectedRoute, authMiddleware, hauth,
      validateReturnBody, hb]

/-- C9 witness: the malformed identifiers the tests send ("1" in the path, an
empty id in the returns body) produce 404 on the path routes and 400 on the
body validation, and an absent well-formed id also produces 404. -/
theorem c9_witness :
    getGenreById [tGenre] "1" = 404 ∧
    getGenreById [tGenre] "dddddddddddddddddddddddd" = 404 ∧
    putGenre "s" (some (issueToken "s" tAdminIdentity)) "1" "genre2" [tGenre]
      = (404, [tGenre]) ∧
    deleteGenre "s" (some (issueToken "s" tAdminIdentity)) "1" [tGenre]
      = (404, [tGenre]) ∧
    postReturns "s" (some (issueToken "s" tAdminIdentity)) ⟨"", tMid⟩ 0 tDb
      = (400, tDb) :=
  ⟨(c9_path_id_not_found "s" (issueToken "s" tAdminIdentity) tAdminIdentity
      [tGenre] "1" "dddddddddddddddddddddddd" (by decide) rfl (by decide)
      (by decide) (by decide)).1,
   (c9_path_id_not_found "s" (issueToken "s" tAdminIdentity) tAdminIdentity
      [tGenre] "1" "dddddddddddddddddddddddd" (by decide) rfl (by decide)
      (by decide) (by decide)).2.1,
   (c9_path_id_not_found "s" (issueToken "s" tAdminIdentity) tAdminIdentity
      [tGenre] "1" "dddddddddddddddddddddddd" (by decide) rfl (by decide)
      (by decide) (by decide)).2.2.1 "genre2",
   (c9_path_id_not_found "s" (issueToken "s" tAdminIdentity) tAdminIdentity
      [tGenre] "1" "dddddddddddddddddddddddd" (by decide) rfl (by decide)
      (by decide) (by decide)).2.2.2.1,
   (c9_path_id_not_found "s" (issueToken "s" tAdminIdentity) tAdminIdentity
      [tGenre] "1" "dddddddddddddddddddddddd" (by decide) rfl (by decide)
      (by decide) (by decide)).2.2.2.2 ⟨"", tMid⟩ 0 tDb (by decide)⟩

/-- C10: the login route responds 400 both when the submitted email matches no
stored user and when the email matches but the password check fails, so the
observable status does not reveal which of the two causes occurred. -/
theorem c10_login_uniform (users1 users2 : List User) (email password : String)
    (u : User)
    (hv : validateAuthBody email password = true)
    (hnone : users1.find? (fun x => x.email == email) = none)
    (hsome : users2.find? (fun x => x.email == email) = some u)
    (hpw : checkPassword u.password password = false) :
    postAuth users1 email password = 400 ∧
    postAuth users2 email password = 400 ∧
    postAuth users1 email password = postAuth users2 email password := by
  refine ⟨?_, ?_, ?_⟩
  · simp [postAuth, hv, hnone]
  · simp [postAuth, hv, hsome, hpw]
  · simp [postAuth, hv, hnone, hsome, hpw]

/-- C10 witness: an unknown email and a wrong password for the stored test user
both produce status 400. -/
theorem c10_witness :
    postAuth [] "user@example.com" "123456" = 400 ∧
    postAuth [tUser] "user@example.com" "123456" = 400 :=
  ⟨(c10_login_uniform [] [tUser] "user@example.com" "123456" tUser
      (by decide) (by decide) (by decide) (by decide)).1,
   (c10_login_uniform [] [tUser] "user@example.com" "123456" tUser
      (by decide) (by decide) (by decide) (by decide)).2.1⟩

end Vidly
